import Mathlib

/-!
# Verification of the cosmos-upgrade-tracker core

Shallow embedding of the upgrade-tracking and alert-scheduling engine of the
repository (src/polkachu_upgrades.py, src/main.py, src/telegram_bot.py).

Modelling conventions:
* Absolute timestamps and hour counts are exact rationals (`ℚ`), measured in
  hours; Python floats are modelled as exact rational arithmetic.
* An ISO-8601 timestamp string is modelled semantically by `IsoTime`: it either
  parses to an absolute time (`IsoTime.valid t`, `t` in hours UTC) or raises
  `ValueError` inside `datetime.fromisoformat` (`IsoTime.malformed`).  A record
  field that is JSON `null` is `Option.none`.
* Python exceptions that escape a function are modelled with `Except PyExc`.
  In `parse_iso_time`, the call `iso_string.replace` on `None` raises
  `AttributeError`, which the surrounding `except ValueError` does not catch.
* Python dicts used as finite maps are modelled as functions into `Option`;
  the per-network alert-flag dict (read only through `.get(key, False)`) is
  modelled as a total function `String → Bool`.
-/

namespace CosmosUpgradeTracker

/-- Python exceptions that can escape the functions we model.  In
`parse_iso_time`, only `ValueError` is caught; `AttributeError` (raised by
`None.replace`) propagates. -/
inductive PyExc where
  | attributeError
  | valueError
deriving DecidableEq, Repr

/-- Semantic model of the `estimated_upgrade_time` string: either a string
that `datetime.fromisoformat` parses to the absolute time `t` (in hours, UTC),
or a string on which it raises `ValueError`. -/
inductive IsoTime where
  | malformed
  | valid (t : ℚ)
deriving DecidableEq

/-- One element of the Polkachu JSON array, restricted to the five fields the
code reads with `.get` (src/polkachu_upgrades.py lines 48-54).  A missing or
`null` field is `none`. -/
structure RawRecord where
  network : Option String
  chain_name : Option String
  node_version : Option String
  block : Option Int
  estimated_upgrade_time : Option IsoTime
deriving DecidableEq

/-- The dict produced by `parse_upgrades` for one record: the same five
fields. -/
structure Upgrade where
  network : Option String
  chain_name : Option String
  node_version : Option String
  block : Option Int
  estimated_upgrade_time : Option IsoTime
deriving DecidableEq

/-- `parse_upgrades` (src/polkachu_upgrades.py lines 41-55): copy the five
fields of every record, in order; nothing is dropped here. -/
def parse_upgrades (data : List RawRecord) : List Upgrade :=
  data.map (fun u =>
    { network := u.network
      chain_name := u.chain_name
      node_version := u.node_version
      block := u.block
      estimated_upgrade_time := u.estimated_upgrade_time })

/-- `SG1_RELEVANT_NETWORKS` (src/polkachu_upgrades.py lines 7-22). -/
def SG1_RELEVANT_NETWORKS : List String :=
  ["akash", "atomone", "cosmos", "evmos", "juno", "kava", "lum",
   "neutron", "noble", "osmosis", "passage", "saga", "stride", "orai"]

/-- `filter_upgrades` (src/polkachu_upgrades.py lines 57-64): keep the
upgrades whose `network` is in the allow-list.  A `None` network is not a
member of a set of strings in Python, so such records are dropped here. -/
def filter_upgrades (upgrades : List Upgrade) : List Upgrade :=
  upgrades.filter (fun u =>
    match u.network with
    | some s => decide (s ∈ SG1_RELEVANT_NETWORKS)
    | none => false)

/-- Outcome of the HTTP GET in `fetch_upgrades`: success with a parsed JSON
array, or one of the failure modes (transport error raised by `requests.get`,
non-2xx status raised by `raise_for_status`, body that is not JSON raised by
`.json()`). -/
inductive FetchOutcome where
  | success (data : List RawRecord)
  | transportError
  | httpError
  | jsonError

/-- `fetch_upgrades` (src/polkachu_upgrades.py lines 27-39) as a function of
the I/O outcome: the bare `except Exception` turns every failure mode into an
empty list, so no exception escapes the feed-client boundary. -/
def fetch_upgrades : FetchOutcome → List RawRecord
  | .success data => data
  | .transportError => []
  | .httpError => []
  | .jsonError => []

/-- `parse_iso_time` (src/polkachu_upgrades.py lines 104-115).  The argument
is the `estimated_upgrade_time` value: `none` models Python `None`.  On
`None`, the call `iso_string.replace` raises `AttributeError`, which the
`except ValueError` clause does not catch, so the exception escapes.  On a
malformed string, `datetime.fromisoformat` raises `ValueError`, which is
caught and turned into `None` (here `Option.none`). -/
def parse_iso_time : Option IsoTime → Except PyExc (Option ℚ)
  | none => .error .attributeError
  | some .malformed => .ok none
  | some (.valid t) => .ok (some t)

/-- `hours_until_upgrade` (src/polkachu_upgrades.py lines 117-127), given the
current UTC time `now` (in hours).  A parse failure (`None` from
`parse_iso_time`) returns `-1`; a parsed time `t` returns
`(t - now)` hours (`delta.total_seconds() / 3600.0`); the `AttributeError`
raised on a missing string propagates. -/
def hours_until_upgrade (now : ℚ) (iso : Option IsoTime) : Except PyExc ℚ :=
  match parse_iso_time iso with
  | .error e => .error e
  | .ok none => .ok (-1)
  | .ok (some t) => .ok (t - now)

/-! ## Tracker state -/

/-- The per-network alert-flag dict.  Python code only reads it through
`alerts_sent.get(key, False)`, so a dict is modelled extensionally as a total
function from flag key to `Bool` (a dict entry holding `False` and a missing
entry are indistinguishable through this interface). -/
def Flags : Type := String → Bool

/-- Flip one flag to `True` (`alerts_sent[key] = True`). -/
def setFlag (f : Flags) (key : String) : Flags :=
  fun k => if k = key then true else f k

/-- A value of the `last_upgrades` cache: the stored upgrade dict plus its
optional `alerts_sent` entry (read back with `.get("alerts_sent", {})` /
`.get("alerts_sent", {...False...})`, both of which default to all-false). -/
structure CachedUpgrade where
  upg : Upgrade
  alerts_sent : Option Flags

/-- `entry.get("alerts_sent", default)` where every default used in the code
is all-`False` under the `.get(key, False)` reading. -/
def getFlags (e : CachedUpgrade) : Flags :=
  e.alerts_sent.getD (fun _ => false)

/-- The `last_upgrades` dict (src/polkachu_upgrades.py line 25): a finite map
from the `network` value (which can be Python `None`) to a cached upgrade. -/
def Cache : Type := Option String → Option CachedUpgrade

def empty_cache : Cache := fun _ => none

/-- `last_upgrades[net] = e`. -/
def cacheSet (st : Cache) (net : Option String) (e : CachedUpgrade) : Cache :=
  fun k => if k = net then some e else st k

/-- The flag of threshold `key` for network `net` as visible in the cache
(`False` when the network is absent). -/
def flag_of (st : Cache) (net : Option String) (key : String) : Bool :=
  match st net with
  | some e => getFlags e key
  | none => false

/-- `check_for_new_or_changed_upgrades` (src/polkachu_upgrades.py lines
66-102), with the module-global `last_upgrades` passed explicitly.  Returns
the updated cache and the `new_or_changed` list in candidate order.  A brand
new network is inserted with the four flags `2_days_before, 1_day_before,
2_hours_before, upgrade_time` all `False` (all-false function); a changed
network (different `node_version` or `block`) replaces the record and carries
the old `alerts_sent` forward; otherwise the cache is untouched. -/
def check_for_new_or_changed_upgrades (st : Cache) :
    List Upgrade → Cache × List Upgrade
  | [] => (st, [])
  | u :: rest =>
    match st u.network with
    | none =>
      let st1 := cacheSet st u.network { upg := u, alerts_sent := some (fun _ => false) }
      let r := check_for_new_or_changed_upgrades st1 rest
      (r.1, u :: r.2)
    | some old =>
      if old.upg.node_version ≠ u.node_version ∨ old.upg.block ≠ u.block then
        let st1 := cacheSet st u.network { upg := u, alerts_sent := some (getFlags old) }
        let r := check_for_new_or_changed_upgrades st1 rest
        (r.1, u :: r.2)
      else
        check_for_new_or_changed_upgrades st rest

/-! ## The poll tick (`check_upgrades`, src/main.py lines 115-196) -/

/-- One emitted alert: the network it is for and the threshold key of the
message that was broadcast. -/
structure AlertEvent where
  network : Option String
  threshold : String
deriving DecidableEq, Repr

/-- The body of the `for upg in relevant` loop of `check_upgrades`
(src/main.py lines 126-190) for one upgrade: possibly insert the network into
`last_upgrades` with flags `24_hours, 2_hours, upgrade_time` all `False`
(lines 134-140), read the flags back (line 142), compute `h_left` (line 143,
this is where a missing `estimated_upgrade_time` raises `AttributeError`),
run the three window checks in order (lines 148, 161, 174), and write the
flags back (line 187).  Returns the new cache, the alerts broadcast for this
upgrade in emission order, and `false` when an exception escaped to the outer
handler (which ends the whole tick). -/
def check_upgrades_one (now : ℚ) (st : Cache) (u : Upgrade) :
    Cache × List AlertEvent × Bool :=
  let net := u.network
  let st1 :=
    match st net with
    | none => cacheSet st net { upg := u, alerts_sent := some (fun _ => false) }
    | some _ => st
  let flags0 :=
    match st1 net with
    | some e => getFlags e
    | none => fun _ => false
  match hours_until_upgrade now u.estimated_upgrade_time with
  | .error _ => (st1, [], false)
  | .ok h =>
    let p1 :=
      if 23 ≤ h ∧ h ≤ 24 ∧ flags0 "24_hours" = false then
        (setFlag flags0 "24_hours", [AlertEvent.mk net "24_hours"])
      else (flags0, [])
    let p2 :=
      if (19 : ℚ)/10 ≤ h ∧ h ≤ (21 : ℚ)/10 ∧ p1.1 "2_hours" = false then
        (setFlag p1.1 "2_hours", p1.2 ++ [AlertEvent.mk net "2_hours"])
      else p1
    let p3 :=
      if (-1 : ℚ)/10 ≤ h ∧ h ≤ (1 : ℚ)/10 ∧ p2.1 "upgrade_time" = false then
        (setFlag p2.1 "upgrade_time", p2.2 ++ [AlertEvent.mk net "upgrade_time"])
      else p2
    let st2 :=
      match st1 net with
      | some e => cacheSet st1 net { e with alerts_sent := some p3.1 }
      | none => st1
    (st2, p3.2, true)

/-- One whole poll tick of `check_upgrades` over the `relevant` list.  The
outer `except Exception` (line 192) ends the loop at the first upgrade whose
processing raises, keeping the cache mutations and alerts already made. -/
def check_upgrades (now : ℚ) (st : Cache) : List Upgrade → Cache × List AlertEvent
  | [] => (st, [])
  | u :: rest =>
    let r := check_upgrades_one now st u
    if r.2.2 then
      let r2 := check_upgrades (now) (r.1) rest
      (r2.1, r.2.1 ++ r2.2)
    else
      (r.1, r.2.1)

/-- A sequence of poll ticks, each with its own wall-clock time and fetched
feed, threaded through the process-lifetime cache. -/
def run_ticks (st : Cache) : List (ℚ × List Upgrade) → Cache
  | [] => st
  | tick :: rest => run_ticks (check_upgrades tick.1 st tick.2).1 rest

/-! ## Dispatch (`broadcast_message`, src/telegram_bot.py lines 164-183) -/

/-- Python `str.lower()` on the character data of a string. -/
def py_lower (s : String) : String :=
  String.mk (s.data.map Char.toLower)

/-- Whether `broadcast_message(application, message, network)` attempts to
send the message to `chat`.  The loop walks `chat_subscriptions.items()`
(modelled as the map `subs`; a chat that is not a key is never sent to) and
sends when `network is None or network in networks`, after lowering
`network`.  Per-chat transport errors are caught inside the loop, so a send
is attempted for every qualifying chat. -/
def broadcast_message (subs : Int → Option (Finset String))
    (network : Option String) (chat : Int) : Bool :=
  let net := network.map py_lower
  match subs chat with
  | none => false
  | some networks =>
    match net with
    | none => true
    | some m => decide (m ∈ networks)

/-! ## The `/listupgrades` command (`list_upgrades`, src/main.py lines 57-113) -/

/-- Python `round(x, 1)` on our rational model of floats: round `x * 10` to
the nearest integer, ties to the even integer, then divide by 10. -/
def pyRound1 (x : ℚ) : ℚ :=
  let f : ℤ := Int.floor (x * 10)
  let r : ℚ := x * 10 - f
  let n : ℤ :=
    if r < 1/2 then f
    else if 1/2 < r then f + 1
    else if f % 2 = 0 then f else f + 1
  (n : ℚ) / 10

/-- The status line computed for one upgrade in the message-building loop of
`list_upgrades` (src/main.py lines 95-104): more than 24 h away, within 24 h,
started less than 24 h ago, or skipped (`continue`) as an old upgrade. -/
inductive UpgradeStatus where
  | days (d : ℚ)
  | hoursLeft (h : ℚ)
  | startedAgo (p : ℚ)
  | skipped
deriving DecidableEq, Repr

/-- The `if h_left > 24 / elif h_left > 0 / elif h_left > -24 / else continue`
chain of `list_upgrades` (src/main.py lines 95-104). -/
def status_of (h : ℚ) : UpgradeStatus :=
  if 24 < h then .days (pyRound1 (h / 24))
  else if 0 < h then .hoursLeft (pyRound1 h)
  else if -24 < h then .startedAgo |pyRound1 h|
  else .skipped

/-- The subscription filter of `list_upgrades` (src/main.py line 80):
`[upg for upg in parsed if upg["network"].lower() in subs]`.  On a record
whose `network` is `None`, the attribute access `.lower()` raises
`AttributeError`, which nothing in `list_upgrades` catches. -/
def list_upgrades_subscribed (subs : Finset String) :
    List Upgrade → Except PyExc (List Upgrade)
  | [] => .ok []
  | u :: rest =>
    match u.network with
    | none => .error .attributeError
    | some s =>
      match list_upgrades_subscribed subs rest with
      | .error e => .error e
      | .ok r => .ok (if py_lower s ∈ subs then u :: r else r)

/-- The message-building loop of `list_upgrades` (src/main.py lines 89-111):
for each subscribed upgrade compute `h_left` (can raise on a missing
timestamp) and its status line, skipping upgrades more than a day old. -/
def list_upgrades_entries (now : ℚ) :
    List Upgrade → Except PyExc (List (Upgrade × UpgradeStatus))
  | [] => .ok []
  | u :: rest =>
    match hours_until_upgrade now u.estimated_upgrade_time with
    | .error e => .error e
    | .ok h =>
      match list_upgrades_entries now rest with
      | .error e => .error e
      | .ok r =>
        match status_of h with
        | .skipped => .ok r
        | st => .ok ((u, st) :: r)

/-- `list_upgrades` (src/main.py lines 57-113) for one recipient: the
upgrades (with their status line) shown in the reply, given the recipient's
subscription set and the parsed feed. -/
def list_upgrades (now : ℚ) (subs : Finset String) (parsed : List Upgrade) :
    Except PyExc (List (Upgrade × UpgradeStatus)) :=
  match list_upgrades_subscribed subs parsed with
  | .error e => .error e
  | .ok s => list_upgrades_entries now s

/-! ## Subscription persistence (src/telegram_bot.py lines 30-60) -/

/-- Decimal digit `d` (for `d < 10`) as the character Python `str` prints. -/
def digitToChar (d : ℕ) : Char := Char.ofNat (48 + d)

/-- The numeric value Python `int` assigns to a decimal digit character. -/
def charToDigit (c : Char) : ℕ := c.toNat - 48

/-- The character data of Python `str(n)` for a natural number `n`: the
decimal digits, most significant first, with `str(0) = "0"`. -/
def py_str_nat (n : ℕ) : List Char :=
  if n = 0 then [Char.ofNat 48] else (Nat.digits 10 n).reverse.map digitToChar

/-- Python `str(k)` for an integer `k`: an optional leading minus sign
followed by the decimal digits of the absolute value. -/
def py_str_int (k : ℤ) : String :=
  if k < 0 then String.mk (Char.ofNat 45 :: py_str_nat k.natAbs)
  else String.mk (py_str_nat k.natAbs)

/-- Python `int(s)` on a decimal numeral (the shape `str` produces): fold the
digits; a leading minus sign negates. -/
def py_int_of_str (s : String) : ℤ :=
  match s.data with
  | c :: rest =>
    if c = Char.ofNat 45 then
      -(rest.foldl (fun a d => a * 10 + charToDigit d) 0 : ℕ)
    else ((c :: rest).foldl (fun a d => a * 10 + charToDigit d) 0 : ℕ)
  | [] => 0

/-- `save_subscriptions` (src/telegram_bot.py lines 48-60): the JSON object
written to disk, `{str(k): list(v) for k, v in chat_subscriptions.items()}`.
The dict is modelled as the list of its items; Python enumerates a set in an
unspecified order, modelled here by the sorted enumeration of the `Finset`. -/
def save_subscriptions (m : List (Int × Finset String)) :
    List (String × List String) :=
  m.map (fun p => (py_str_int p.1, p.2.sort (fun a b => a ≤ b)))

/-- `load_subscriptions` (src/telegram_bot.py lines 30-46): the dict rebuilt
from the file, `{int(k): set(v) for k, v in data.items()}`. -/
def load_subscriptions (d : List (String × List String)) :
    List (Int × Finset String) :=
  d.map (fun p => (py_int_of_str p.1, p.2.toFinset))

/-! ## The two threshold tables

`main_threshold_table` is the table the code implements (src/main.py lines
148, 161, 174): three narrow windows, in emission order.
`spec_threshold_table` follows the specification's words (spec §4.3): four
at-or-past predicates, in table order.  The second is the spec-side half of
the refinement comparison for the alert-scheduler claims. -/

/-- The alert conditions of `check_upgrades` in emission order: threshold key
and window predicate on `h_left`. -/
def main_threshold_table : List (String × (ℚ → Bool)) :=
  [("24_hours", fun h => decide (23 ≤ h ∧ h ≤ 24)),
   ("2_hours", fun h => decide ((19 : ℚ)/10 ≤ h ∧ h ≤ (21 : ℚ)/10)),
   ("upgrade_time", fun h => decide ((-1 : ℚ)/10 ≤ h ∧ h ≤ (1 : ℚ)/10))]

/-- The thresholds `check_upgrades` fires in one tick for a given flag state
and `h_left`, per `main_threshold_table`: every threshold whose window holds
and whose flag is still false, in table order. -/
def main_fired (flags : Flags) (h : ℚ) : List String :=
  (main_threshold_table.filter (fun p => p.2 h && !(flags p.1))).map Prod.fst

/-- The threshold table as the specification states it (spec §4.3): ordered,
with at-or-past crossing predicates. -/
def spec_threshold_table : List (String × (ℚ → Bool)) :=
  [("2_days_before", fun h => decide (h ≤ 48)),
   ("1_day_before", fun h => decide (h ≤ 24)),
   ("2_hours_before", fun h => decide (h ≤ 2)),
   ("upgrade_time", fun h => decide (h ≤ 0))]

/-- The thresholds the specification says must fire in one tick: every
threshold whose crossing predicate is satisfied and whose flag is still
false, in table order. -/
def spec_fired (flags : Flags) (h : ℚ) : List String :=
  (spec_threshold_table.filter (fun p => p.2 h && !(flags p.1))).map Prod.fst

/-! ## Concrete inputs used by counterexamples and witnesses -/

/-- A feed candidate for network `cosmos` whose estimated upgrade time is the
time origin (`t = 0` hours). -/
def cosmos_upgrade : Upgrade :=
  { network := some "cosmos"
    chain_name := some "Cosmos Hub"
    node_version := some "v1"
    block := some 100
    estimated_upgrade_time := some (.valid 0) }

/-- A cache in which network `cosmos` is already tracked with all alert flags
false (the state after a first sighting). -/
def cosmos_tracked_cache : Cache :=
  cacheSet empty_cache (some "cosmos")
    { upg := cosmos_upgrade, alerts_sent := some (fun _ => false) }

/-! ## Claim C1 -/

/-- C1, counterexample.  Claim: when `hoursUntil` jumps from `50` to `-3`
between two consecutive ticks, the next tick fires every threshold whose
at-or-past predicate is satisfied and whose flag is still false (all four of
the spec's thresholds here).  In the code, a first tick at `h = 50` tracks
`cosmos` with all flags false and fires nothing; the next tick at `h = -3`
also fires nothing, because every alert guard of `check_upgrades` is a
narrow window (`23 ≤ h ≤ 24`, `1.9 ≤ h ≤ 2.1`, `-0.1 ≤ h ≤ 0.1`) and `-3`
lies in none of them — yet the spec-side table says all four thresholds
should fire. -/
theorem C1_counterexample :
    hours_until_upgrade (-50) cosmos_upgrade.estimated_upgrade_time = .ok 50
      ∧ hours_until_upgrade 3 cosmos_upgrade.estimated_upgrade_time = .ok (-3)
      ∧ flag_of (check_upgrades (-50) empty_cache [cosmos_upgrade]).1
          (some "cosmos") "24_hours" = false
      ∧ flag_of (check_upgrades (-50) empty_cache [cosmos_upgrade]).1
          (some "cosmos") "2_hours" = false
      ∧ flag_of (check_upgrades (-50) empty_cache [cosmos_upgrade]).1
          (some "cosmos") "upgrade_time" = false
      ∧ spec_fired (fun _ => false) (-3)
          = ["2_days_before", "1_day_before", "2_hours_before", "upgrade_time"]
      ∧ (check_upgrades 3 (check_upgrades (-50) empty_cache [cosmos_upgrade]).1
          [cosmos_upgrade]).2 = [] := by
  refine ⟨by norm_num [hours_until_upgrade, parse_iso_time, cosmos_upgrade], ?_, ?_, ?_, ?_, ?_, ?_⟩ <;>
    norm_num [check_upgrades, check_upgrades_one, cosmos_upgrade, hours_until_upgrade,
      parse_iso_time, empty_cache, cacheSet, getFlags, setFlag, flag_of,
      spec_fired, spec_threshold_table]

/-- C1, amended.  For a tracked network with a parsable estimated time, one
tick of `check_upgrades` fires exactly the thresholds of the code's window
table (`24_hours` on `23 ≤ h ≤ 24`, `2_hours` on `1.9 ≤ h ≤ 2.1`,
`upgrade_time` on `-0.1 ≤ h ≤ 0.1`) whose window contains the current
`h_left` and whose flag is still false, each as a separate alert for that
network, in table order; there is no two-days threshold, and a threshold
whose window was skipped over between two polls never fires. -/
theorem C1_alert_windows (now t : ℚ) (st : Cache) (u : Upgrade) (e : CachedUpgrade)
    (hst : st u.network = some e)
    (ht : u.estimated_upgrade_time = some (.valid t)) :
    ((check_upgrades now st [u]).2).map AlertEvent.threshold
        = main_fired (getFlags e) (t - now)
      ∧ ∀ ev ∈ (check_upgrades now st [u]).2, ev.network = u.network := by
  simp only [check_upgrades, check_upgrades_one, hst, ht, hours_until_upgrade, parse_iso_time]
  split_ifs with hc1 hc2 hc3 hc4 hc5 hc6 hc7
  all_goals (
    simp only [setFlag, main_fired, main_threshold_table, List.filter_cons, List.filter_nil,
      Bool.and_eq_true, decide_eq_true_eq, Bool.not_eq_true', and_assoc,
      String.reduceEq, reduceIte] at *)
  all_goals (split_ifs <;> simp_all)

/-- C1, witness for `C1_alert_windows`: a tick at `h_left = 23.5` on a
tracked `cosmos` with all flags false. -/
theorem C1_alert_windows_witness :
    ((check_upgrades (-47/2) cosmos_tracked_cache [cosmos_upgrade]).2).map AlertEvent.threshold
        = main_fired
            (getFlags { upg := cosmos_upgrade, alerts_sent := some (fun _ => false) })
            (0 - (-47/2))
      ∧ ∀ ev ∈ (check_upgrades (-47/2) cosmos_tracked_cache [cosmos_upgrade]).2,
          ev.network = cosmos_upgrade.network :=
  C1_alert_windows (-47/2) 0 cosmos_tracked_cache cosmos_upgrade
    { upg := cosmos_upgrade, alerts_sent := some (fun _ => false) }
    (by norm_num [cosmos_tracked_cache, cacheSet, cosmos_upgrade]) rfl

/-! ## Claim C2 -/

/-- Processing one upgrade in the poll loop never turns a flag off. -/
lemma check_upgrades_one_flag_mono (now : ℚ) (st : Cache) (u : Upgrade)
    (net : Option String) (k : String) (h : flag_of st net k = true) :
    flag_of (check_upgrades_one now st u).1 net k = true := by
  by_cases hn : net = u.network
  · subst hn
    rcases he : st u.network with _ | e
    · simp [flag_of, he] at h
    · have hf : getFlags e k = true := by simpa [flag_of, he] using h
      unfold check_upgrades_one
      simp only [he]
      rcases hr : hours_until_upgrade now u.estimated_upgrade_time with e1 | hq
      all_goals simp only [hr]
      · simpa [flag_of, he] using h
      · split_ifs <;>
          simp_all [flag_of, cacheSet, getFlags, setFlag]
  · unfold check_upgrades_one
    rcases he : st u.network with _ | e <;>
      rcases hr : hours_until_upgrade now u.estimated_upgrade_time with e1 | hq <;>
        simp only [he, hr] <;>
          (try split_ifs) <;>
            simp_all [flag_of, cacheSet, hn]

/-- One whole tick never turns a flag off. -/
lemma check_upgrades_flag_mono (now : ℚ) (us : List Upgrade) :
    ∀ (st : Cache) (net : Option String) (k : String), flag_of st net k = true →
      flag_of (check_upgrades now st us).1 net k = true := by
  induction us with
  | nil => intro st net k h; simpa [check_upgrades] using h
  | cons u rest ih =>
    intro st net k h
    have hone := check_upgrades_one_flag_mono now st u net k h
    unfold check_upgrades
    rcases hb : (check_upgrades_one now st u).2.2 with _ | _
    · simpa [hb] using hone
    · simpa [hb] using ih (check_upgrades_one now st u).1 net k hone

/-- New/changed detection never turns a flag off: a new network starts all
false, a changed one carries the old flags forward, an unchanged one is left
alone. -/
lemma check_for_new_or_changed_flag_mono (us : List Upgrade) :
    ∀ (st : Cache) (net : Option String) (k : String), flag_of st net k = true →
      flag_of (check_for_new_or_changed_upgrades st us).1 net k = true := by
  induction us with
  | nil => intro st net k h; simpa [check_for_new_or_changed_upgrades] using h
  | cons u rest ih =>
    intro st net k h
    unfold check_for_new_or_changed_upgrades
    rcases he : st u.network with _ | old
    · simp only [he]
      refine ih _ net k ?_
      by_cases hn : net = u.network
      · subst hn; simp [flag_of, he] at h
      · simpa [flag_of, cacheSet, hn] using h
    · simp only [he]
      split_ifs with hch
      · refine ih _ net k ?_
        by_cases hn : net = u.network
        · subst hn
          have hf : getFlags old k = true := by simpa [flag_of, he] using h
          simp only [getFlags] at hf
          simp [flag_of, cacheSet, getFlags, hf]
        · simpa [flag_of, cacheSet, hn] using h
      · exact ih st net k h

/-- A whole sequence of ticks never turns a flag off. -/
lemma run_ticks_flag_mono (ticks : List (ℚ × List Upgrade)) :
    ∀ (st : Cache) (net : Option String) (k : String), flag_of st net k = true →
      flag_of (run_ticks st ticks) net k = true := by
  induction ticks with
  | nil => intro st net k h; simpa [run_ticks] using h
  | cons tk rest ih =>
    intro st net k h
    exact ih _ net k (check_upgrades_flag_mono tk.1 tk.2 st net k h)

/-- C2: for every network and threshold flag, the engine moves the flag only
from false to true and never resets it: one poll tick (`check_upgrades`),
the new/changed detector (`check_for_new_or_changed_upgrades`), and any
sequence of poll ticks (`run_ticks`) all preserve a true flag, so a
(network, threshold) alert is attempted at most once over the process
lifetime. -/
theorem C2_flags_monotone :
    (∀ (now : ℚ) (st : Cache) (us : List Upgrade) (net : Option String) (k : String),
        flag_of st net k = true → flag_of (check_upgrades now st us).1 net k = true)
      ∧ (∀ (st : Cache) (us : List Upgrade) (net : Option String) (k : String),
        flag_of st net k = true →
          flag_of (check_for_new_or_changed_upgrades st us).1 net k = true)
      ∧ (∀ (ticks : List (ℚ × List Upgrade)) (st : Cache) (net : Option String) (k : String),
        flag_of st net k = true → flag_of (run_ticks st ticks) net k = true) :=
  ⟨fun now st us net k h => check_upgrades_flag_mono now us st net k h,
   fun st us net k h => check_for_new_or_changed_flag_mono us st net k h,
   fun ticks st net k h => run_ticks_flag_mono ticks st net k h⟩

/-- A cache in which the `24_hours` alert for `cosmos` has already been
sent. -/
def cosmos_alerted_cache : Cache :=
  cacheSet empty_cache (some "cosmos")
    { upg := cosmos_upgrade, alerts_sent := some (fun k => k == "24_hours") }

/-- C2, witness: an already-sent `24_hours` flag for `cosmos` survives a
tick that processes `cosmos` again. -/
theorem C2_flags_monotone_witness :
    flag_of (check_upgrades 0 cosmos_alerted_cache [cosmos_upgrade]).1
      (some "cosmos") "24_hours" = true :=
  C2_flags_monotone.1 0 cosmos_alerted_cache [cosmos_upgrade] (some "cosmos") "24_hours"
    (by norm_num [flag_of, cosmos_alerted_cache, cacheSet, empty_cache, getFlags])

/-! ## Claim C3 -/

/-- The `cosmos` feed entry again, with only the target block changed. -/
def cosmos_upgrade_newblock : Upgrade := { cosmos_upgrade with block := some 101 }

/-- C3: for a cached entry and a candidate for the same network, a differing
`node_version` or `block` makes `check_for_new_or_changed_upgrades` report
the candidate in the change-set and replace the cached record while carrying
the old `alerts_sent` flags forward unchanged (other networks untouched);
with both equal, the cache is left untouched and nothing is reported. -/
theorem C3_changed_detection (st : Cache) (u : Upgrade) (old : CachedUpgrade) (f : Flags)
    (hst : st u.network = some old) (hf : old.alerts_sent = some f) :
    ((old.upg.node_version ≠ u.node_version ∨ old.upg.block ≠ u.block) →
        (check_for_new_or_changed_upgrades st [u]).2 = [u]
          ∧ (check_for_new_or_changed_upgrades st [u]).1 u.network
              = some { upg := u, alerts_sent := some f }
          ∧ ∀ n, n ≠ u.network →
              (check_for_new_or_changed_upgrades st [u]).1 n = st n)
      ∧ ((old.upg.node_version = u.node_version ∧ old.upg.block = u.block) →
        check_for_new_or_changed_upgrades st [u] = (st, [])) := by
  unfold check_for_new_or_changed_upgrades
  simp only [hst]
  split_ifs with hch
  · constructor
    · intro hneq
      refine ⟨rfl, ?_, ?_⟩
      · simp [check_for_new_or_changed_upgrades, cacheSet, getFlags, hf]
      · intro n hn
        simp [check_for_new_or_changed_upgrades, cacheSet, hn]
    · intro heq
      exact absurd heq (by tauto)
  · constructor
    · intro hneq
      exact absurd hneq (by tauto)
    · intro heq
      rfl

/-- C3, witness: changing only `block` (100 → 101) for tracked `cosmos`
re-reports the upgrade and keeps the all-false flags object. -/
theorem C3_changed_detection_witness :
    (check_for_new_or_changed_upgrades cosmos_tracked_cache [cosmos_upgrade_newblock]).2
        = [cosmos_upgrade_newblock]
      ∧ (check_for_new_or_changed_upgrades cosmos_tracked_cache [cosmos_upgrade_newblock]).1
          cosmos_upgrade_newblock.network
          = some { upg := cosmos_upgrade_newblock, alerts_sent := some (fun _ => false) } := by
  have h := (C3_changed_detection cosmos_tracked_cache cosmos_upgrade_newblock
      { upg := cosmos_upgrade, alerts_sent := some (fun _ => false) } (fun _ => false)
      (by norm_num [cosmos_tracked_cache, cacheSet, cosmos_upgrade_newblock, cosmos_upgrade])
      rfl).1
    (Or.inr (by norm_num [cosmos_upgrade_newblock, cosmos_upgrade]))
  exact ⟨h.1, h.2.1⟩

/-! ## Claims C4 and C10 -/

/-- The `cosmos` feed entry with an estimated time string that
`datetime.fromisoformat` rejects. -/
def cosmos_upgrade_badtime : Upgrade :=
  { cosmos_upgrade with estimated_upgrade_time := some .malformed }

/-- A tick produces no alert for upgrades whose time string is unparsable
(`h_left = -1` lies outside every alert window) or missing (the
`AttributeError` ends the tick before any alert for that upgrade). -/
lemma no_alerts_of_bad_times (now : ℚ) (us : List Upgrade) :
    ∀ st : Cache,
      (∀ u ∈ us, u.estimated_upgrade_time = some .malformed
          ∨ u.estimated_upgrade_time = none) →
      (check_upgrades now st us).2 = [] := by
  induction us with
  | nil => intro st h; rfl
  | cons u rest ih =>
    intro st h
    rcases h u (by simp) with hm | hm
    · unfold check_upgrades check_upgrades_one
      simp only [hm, hours_until_upgrade, parse_iso_time]
      norm_num
      exact ih _ (fun v hv => h v (by simp [hv]))
    · unfold check_upgrades check_upgrades_one
      simp [hm, hours_until_upgrade, parse_iso_time]

/-- C4, counterexample.  Claim: a missing or unparsable estimated time
yields an "unknown" sentinel treated as never-due.  In the code there is no
such sentinel: a missing (`None`) time makes the computation raise
`AttributeError` (the `except ValueError` does not catch it) instead of
yielding any value, and an unparsable string yields `-1` — the very value a
valid upgrade whose time passed exactly one hour ago also yields, so the
result is not distinguishable from a due upgrade. -/
theorem C4_counterexample :
    parse_iso_time none = .error .attributeError
      ∧ hours_until_upgrade 0 none = .error .attributeError
      ∧ hours_until_upgrade 0 (some .malformed) = .ok (-1)
      ∧ hours_until_upgrade 0 (some (.valid (-1))) = .ok (-1) := by
  refine ⟨rfl, rfl, rfl, ?_⟩
  norm_num [hours_until_upgrade, parse_iso_time]

/-- C4, amended: an unparsable time string makes `hours_until_upgrade`
return `-1` (not a distinguished sentinel), and no threshold alert is ever
produced on any tick for upgrades whose time is unparsable or missing —
for `-1` because it lies outside every alert window, and for a missing time
because the raised `AttributeError` ends the tick first. -/
theorem C4_unknown_time_never_alerts :
    (∀ now : ℚ, hours_until_upgrade now (some .malformed) = .ok (-1))
      ∧ (∀ (now : ℚ) (st : Cache) (us : List Upgrade),
          (∀ u ∈ us, u.estimated_upgrade_time = some .malformed
              ∨ u.estimated_upgrade_time = none) →
          (check_upgrades now st us).2 = []) :=
  ⟨fun _ => rfl, fun now st us h => no_alerts_of_bad_times now us st h⟩

/-- C4, witness: a tick over the unparsable-time `cosmos` entry emits
nothing. -/
theorem C4_unknown_time_never_alerts_witness :
    (check_upgrades 5 empty_cache [cosmos_upgrade_badtime]).2 = [] :=
  C4_unknown_time_never_alerts.2 5 empty_cache [cosmos_upgrade_badtime]
    (by simp [cosmos_upgrade_badtime])

/-- C10, counterexample.  Claim: `hours_until_upgrade` returns exactly `-1`
for every missing or unparsable estimated-time string, *including `None`*.
For `None` it does not return at all: `None.replace` raises
`AttributeError`, which the `except ValueError` clause does not catch. -/
theorem C10_counterexample : hours_until_upgrade 0 none = .error .attributeError := rfl

/-- C10, amended: for every *unparsable string* (not `None`),
`hours_until_upgrade` returns exactly `-1`, the same value as a valid
upgrade whose time passed exactly one hour ago; `list_upgrades` then shows
such an upgrade as "started 1.0 hours ago" rather than marking it unknown. -/
theorem C10_minus_one_not_a_sentinel :
    (∀ now : ℚ, hours_until_upgrade now (some .malformed) = .ok (-1))
      ∧ (∀ now : ℚ, hours_until_upgrade now (some (.valid (now - 1))) = .ok (-1))
      ∧ status_of (-1) = .startedAgo 1
      ∧ (∀ (now : ℚ) (subs : Finset String) (u : Upgrade) (s : String),
          u.network = some s → py_lower s ∈ subs →
          u.estimated_upgrade_time = some .malformed →
          list_upgrades now subs [u] = .ok [(u, .startedAgo 1)]) := by
  refine ⟨fun _ => rfl, ?_, by norm_num [status_of, pyRound1], ?_⟩
  · intro now
    simp only [hours_until_upgrade, parse_iso_time, Except.ok.injEq]
    ring
  · intro now subs u s hn hsub hm
    have hst : status_of (-1 : ℚ) = .startedAgo 1 := by norm_num [status_of, pyRound1]
    simp [list_upgrades, list_upgrades_subscribed, list_upgrades_entries, hn, hsub, hm,
      hours_until_upgrade, parse_iso_time, hst]

/-- C10, witness: the subscribed unparsable-time `cosmos` entry is listed as
started 1.0 hours ago. -/
theorem C10_minus_one_not_a_sentinel_witness :
    list_upgrades 0 ({"cosmos"} : Finset String) [cosmos_upgrade_badtime]
      = .ok [(cosmos_upgrade_badtime, .startedAgo 1)] :=
  C10_minus_one_not_a_sentinel.2.2.2 0 {"cosmos"} cosmos_upgrade_badtime "cosmos"
    rfl (by decide) rfl

/-! ## Claim C5 -/

/-- C5: for a broadcast about a specific (lowercase-named) network, a chat
in the subscription map receives the message exactly when its subscription
set contains the network. -/
theorem C5_broadcast_only_subscribed (subs : Int → Option (Finset String)) (chat : Int)
    (nets : Finset String) (m : String) (hc : subs chat = some nets)
    (hm : py_lower m = m) :
    broadcast_message subs (some m) chat = true ↔ m ∈ nets := by
  simp [broadcast_message, hc, hm]

/-- A subscription registry with one chat (id 1) subscribed to `cosmos`
only. -/
def demo_subscriptions : Int → Option (Finset String) :=
  fun c => if c = 1 then some {"cosmos"} else none

/-- C5, witness: the `cosmos`-only chat receives a `cosmos` alert and never
an `osmosis` alert. -/
theorem C5_broadcast_only_subscribed_witness :
    broadcast_message demo_subscriptions (some "cosmos") 1 = true
      ∧ ¬broadcast_message demo_subscriptions (some "osmosis") 1 = true := by
  constructor
  · exact (C5_broadcast_only_subscribed demo_subscriptions 1 {"cosmos"} "cosmos"
      (by norm_num [demo_subscriptions]) (by decide)).mpr (by decide)
  · intro h
    exact absurd ((C5_broadcast_only_subscribed demo_subscriptions 1 {"cosmos"} "osmosis"
      (by norm_num [demo_subscriptions]) (by decide)).mp h) (by decide)

/-! ## Claim C6 -/

/-- C6: the normalizer (`parse_upgrades` followed by `filter_upgrades`)
never lets a record without a `network` field through, and removing such a
malformed record from anywhere in the batch leaves the output on the rest of
the batch unchanged — the malformed record is dropped without aborting the
batch. -/
theorem C6_malformed_records_dropped :
    (∀ (data : List RawRecord) (u : Upgrade),
        u ∈ filter_upgrades (parse_upgrades data) → u.network ≠ none)
      ∧ (∀ (d1 d2 : List RawRecord) (r : RawRecord), r.network = none →
        filter_upgrades (parse_upgrades (d1 ++ r :: d2))
          = filter_upgrades (parse_upgrades (d1 ++ d2))) := by
  constructor
  · intro data u hmem hnone
    simp only [filter_upgrades, List.mem_filter, hnone] at hmem
    exact absurd hmem.2 (by simp)
  · intro d1 d2 r hr
    simp [parse_upgrades, filter_upgrades, List.filter_append, hr]

/-- A well-formed `cosmos` feed record. -/
def cosmos_record : RawRecord :=
  { network := some "cosmos", chain_name := some "Cosmos Hub", node_version := some "v1",
    block := some 100, estimated_upgrade_time := some (.valid 0) }

/-- A malformed feed record: no `network` field. -/
def bad_record : RawRecord :=
  { network := none, chain_name := none, node_version := some "v2",
    block := none, estimated_upgrade_time := none }

/-- C6, witness: a malformed record in the middle of a batch is dropped and
the records around it are still processed. -/
theorem C6_malformed_records_dropped_witness :
    filter_upgrades (parse_upgrades ([cosmos_record] ++ bad_record :: [cosmos_record]))
      = filter_upgrades (parse_upgrades ([cosmos_record] ++ [cosmos_record])) :=
  C6_malformed_records_dropped.2 [cosmos_record] [cosmos_record] bad_record rfl

/-! ## Claim C8 -/

/-- C8: every failure mode of the feed fetch (transport error, non-2xx
status, unparsable body) degrades to an empty list instead of an exception,
and a tick over the resulting empty feed leaves the cache unchanged and
produces no change-set and no alerts. -/
theorem C8_feed_failures_soft :
    fetch_upgrades .transportError = []
      ∧ fetch_upgrades .httpError = []
      ∧ fetch_upgrades .jsonError = []
      ∧ (∀ (now : ℚ) (st : Cache),
          check_upgrades now st
            (filter_upgrades (parse_upgrades (fetch_upgrades .transportError))) = (st, []))
      ∧ (∀ st : Cache,
          check_for_new_or_changed_upgrades st
            (filter_upgrades (parse_upgrades (fetch_upgrades .httpError))) = (st, [])) :=
  ⟨rfl, rfl, rfl, fun _ _ => rfl, fun _ => rfl⟩

/-! ## Claim C7 -/

/-- The `cosmos` feed entry at exactly 24 hours past its upgrade time when
`now = 0`. -/
def cosmos_upgrade_stale : Upgrade :=
  { cosmos_upgrade with estimated_upgrade_time := some (.valid (-24)) }

/-- The `continue` branch of the status chain is taken exactly on
`h ≤ -24`. -/
lemma status_of_eq_skipped (h : ℚ) : status_of h = .skipped ↔ h ≤ -24 := by
  unfold status_of
  split_ifs with h1 h2 h3 <;> simp <;> linarith

/-- C7, counterexample.  Claim: `list_upgrades` excludes exactly the
upgrades with `hoursUntil < -24`, so an upgrade at exactly 24 hours past is
still listed.  In the code the cutoff is `h_left > -24`, so a subscribed
upgrade at exactly `h_left = -24` — which does not satisfy
`hoursUntil < -24` — is nevertheless dropped from the reply. -/
theorem C7_counterexample :
    list_upgrades 0 {"cosmos"} [cosmos_upgrade_stale] = .ok []
      ∧ hours_until_upgrade 0 cosmos_upgrade_stale.estimated_upgrade_time = .ok (-24)
      ∧ py_lower "cosmos" ∈ ({"cosmos"} : Finset String)
      ∧ ¬((-24 : ℚ) < -24) := by
  refine ⟨?_, ?_, by decide, by norm_num⟩
  · have hsk : status_of (-24 : ℚ) = .skipped := by
      rw [status_of_eq_skipped]
    simp [list_upgrades, list_upgrades_subscribed, list_upgrades_entries,
      cosmos_upgrade_stale, cosmos_upgrade, hours_until_upgrade, parse_iso_time,
      sub_zero, hsk]
  · norm_num [hours_until_upgrade, parse_iso_time, cosmos_upgrade_stale, cosmos_upgrade]

/-- C7, amended: for a recipient and a single parsable-time candidate,
`list_upgrades` shows the upgrade exactly when the recipient subscribes to
its (lowercased) network and `h_left > -24`: upgrades at `h_left ≤ -24` —
the boundary included — are excluded, and unsubscribed networks are never
shown. -/
theorem C7_list_upcoming (now t : ℚ) (subs : Finset String) (u : Upgrade) (s : String)
    (hn : u.network = some s) (ht : u.estimated_upgrade_time = some (.valid t)) :
    list_upgrades now subs [u]
      = .ok (if py_lower s ∈ subs ∧ -24 < t - now
          then [(u, status_of (t - now))] else []) := by
  by_cases hsub : py_lower s ∈ subs
  · by_cases hfresh : -24 < t - now
    · rcases hs : status_of (t - now) with d | hh | p | _
      all_goals
        simp [list_upgrades, list_upgrades_subscribed, list_upgrades_entries, hn, ht,
          hours_until_upgrade, parse_iso_time, hsub, hfresh, hs]
      rw [status_of_eq_skipped] at hs
      linarith
    · have hsk : status_of (t - now) = .skipped := by
        rw [status_of_eq_skipped]; linarith
      simp [list_upgrades, list_upgrades_subscribed, list_upgrades_entries, hn, ht,
        hours_until_upgrade, parse_iso_time, hsub, hfresh, hsk]
  · simp [list_upgrades, list_upgrades_subscribed, list_upgrades_entries, hn, ht,
      hours_until_upgrade, parse_iso_time, hsub]

/-- C7, witness: the subscribed `cosmos` upgrade one hour before its time. -/
theorem C7_list_upcoming_witness :
    list_upgrades (-1) ({"cosmos"} : Finset String) [cosmos_upgrade]
      = .ok (if py_lower "cosmos" ∈ ({"cosmos"} : Finset String) ∧ (-24 : ℚ) < 0 - (-1)
          then [(cosmos_upgrade, status_of (0 - (-1)))] else []) :=
  C7_list_upcoming (-1) 0 {"cosmos"} cosmos_upgrade "cosmos" rfl rfl

/-! ## Claim C9 -/

lemma charToDigit_digitToChar {d : ℕ} (hd : d < 10) :
    charToDigit (digitToChar d) = d := by
  interval_cases d <;> decide

lemma digitToChar_ne_minus {d : ℕ} (hd : d < 10) :
    digitToChar d ≠ Char.ofNat 45 := by
  interval_cases d <;> decide

lemma foldl_map_digitToChar (l : List ℕ) (hl : ∀ d ∈ l, d < 10) :
    ∀ acc : ℕ, List.foldl (fun a c => a * 10 + charToDigit c) acc (l.map digitToChar)
      = List.foldl (fun a d => a * 10 + d) acc l := by
  induction l with
  | nil => intro acc; rfl
  | cons d t ih =>
    intro acc
    simp only [List.map_cons, List.foldl_cons,
      charToDigit_digitToChar (hl d (by simp))]
    exact ih (fun x hx => hl x (by simp [hx])) _

lemma foldl_reverse_digits (l : List ℕ) :
    ∀ acc : ℕ, List.foldl (fun a d => a * 10 + d) acc l.reverse
      = acc * 10 ^ l.length + Nat.ofDigits 10 l := by
  induction l with
  | nil => intro acc; simp [Nat.ofDigits_nil]
  | cons d t ih =>
    intro acc
    simp only [List.reverse_cons, List.foldl_append, List.foldl_cons, List.foldl_nil,
      ih acc, Nat.ofDigits_cons, List.length_cons, pow_succ, Nat.cast_id]
    ring

/-- Folding the decimal digit characters of `n` back through
`a * 10 + digit` recovers `n`: the digit-level core of `int(str(n))= n`. -/
lemma parse_py_str_nat (n : ℕ) :
    List.foldl (fun a c => a * 10 + charToDigit c) 0 (py_str_nat n) = n := by
  by_cases hn : n = 0
  · subst hn; decide
  · have hlt : ∀ d ∈ (Nat.digits 10 n).reverse, d < 10 := by
      intro d hd
      exact Nat.digits_lt_base (by norm_num) (List.mem_reverse.mp hd)
    rw [py_str_nat, if_neg hn]
    rw [foldl_map_digitToChar _ hlt 0, foldl_reverse_digits, Nat.ofDigits_digits]
    simp

lemma py_str_nat_ne_nil (n : ℕ) : py_str_nat n ≠ [] := by
  unfold py_str_nat
  split_ifs with h
  · simp
  · simp [Nat.digits_ne_nil_iff_ne_zero, h]

/-- A decimal numeral never starts with a minus sign. -/
lemma py_str_nat_no_minus (n : ℕ) : ∀ c ∈ py_str_nat n, c ≠ Char.ofNat 45 := by
  intro c hc
  unfold py_str_nat at hc
  split_ifs at hc with h
  · simp at hc; subst hc; decide
  · simp only [List.mem_map] at hc
    obtain ⟨d, hd, rfl⟩ := hc
    exact digitToChar_ne_minus
      (Nat.digits_lt_base (by norm_num) (List.mem_reverse.mp hd))

/-- `int(str(k)) = k` for every integer `k`. -/
lemma py_int_of_str_py_str_int (k : ℤ) : py_int_of_str (py_str_int k) = k := by
  by_cases hk : k < 0
  · rw [py_str_int, if_pos hk]
    simp only [py_int_of_str]
    rw [if_pos trivial, parse_py_str_nat]
    omega
  · rw [py_str_int, if_neg hk]
    obtain ⟨c, rest, hcr⟩ : ∃ c rest, py_str_nat k.natAbs = c :: rest := by
      rcases h : py_str_nat k.natAbs with _ | ⟨c, rest⟩
      · exact absurd h (py_str_nat_ne_nil _)
      · exact ⟨c, rest, rfl⟩
    simp only [py_int_of_str, hcr]
    rw [if_neg (py_str_nat_no_minus k.natAbs c (hcr ▸ List.mem_cons_self c rest))]
    rw [← hcr, parse_py_str_nat]
    omega

/-- `set(list(v)) = v`: rebuilding the set from its enumeration is the
identity. -/
lemma sort_toFinset_eq (s : Finset String) :
    (s.sort (fun a b => a ≤ b)).toFinset = s := by
  ext a
  simp [List.mem_toFinset, Finset.mem_sort]

/-- C9: saving the subscription map to its persisted form (string keys,
list values) and loading it back (`int` keys, `set` values) is the identity
on every mapping from integer recipient ids to sets of network names. -/
theorem C9_subscriptions_roundtrip (m : List (Int × Finset String)) :
    load_subscriptions (save_subscriptions m) = m := by
  unfold load_subscriptions save_subscriptions
  rw [List.map_map]
  induction m with
  | nil => rfl
  | cons p rest ih =>
    simp only [List.map_cons, ih, Function.comp]
    rw [py_int_of_str_py_str_int, sort_toFinset_eq]

end CosmosUpgradeTracker
